import Mathlib

/-!
Verification of the hikvision-isapi-utils HTTP client wrapper.

This file gives a shallow embedding of the two client classes of the
repository (`Client` in `client.py`, `AsyncClient` in `asyncclient.py`)
and proves the testable properties of their specification: the
401-reauthentication protocol, the error-propagation policy, base-URL
construction and URL joining, kwargs passthrough, and the resource
lifecycle (close / context-manager scoping).

The network is modelled by an oracle `device : Nat → Except TransportError
Response` giving the outcome of the n-th physical exchange performed
during one `_request` call; the embedding records every physical exchange
it issues so that exchange counts and the identity of the auth object,
URL and connection resource used on each exchange can be stated.
-/

set_option autoImplicit false

namespace Hik

/-! URL model

A model of `urllib.parse.urljoin` (CPython `Lib/urllib/parse.py`),
operating on `List Char`.  Path parameters (`;params`) are folded into the
path and an absent query/fragment is represented by the empty string,
which is how `urlunsplit` re-serialises them. -/

/-- Characters allowed in a URL scheme, after the leading letter
(`scheme_chars` in urllib). -/
def isSchemeChar (c : Char) : Bool :=
  c.isAlpha || c.isDigit || c == '+' || c == '-' || c == '.'

/-- Split a character list at the first occurrence of `ch`; the second
component is `none` when `ch` does not occur. -/
def breakAtChar (ch : Char) : List Char → List Char × Option (List Char)
  | [] => ([], none)
  | c :: cs =>
    if c = ch then ([], some cs)
    else
      let r := breakAtChar ch cs
      (c :: r.1, r.2)

/-- Extract `scheme:`-prefix of a URL as urllib's `urlsplit` does: the text
before the first colon counts as a scheme when it is nonempty, starts with
an ASCII letter and consists of scheme characters; the scheme is
lowercased. -/
def extractScheme (l : List Char) : Option (List Char × List Char) :=
  match breakAtChar ':' l with
  | (_, none) => none
  | (before, some after) =>
    match before with
    | [] => none
    | c :: cs =>
      if c.isAlpha ∧ (c :: cs).all isSchemeChar then
        some ((c :: cs).map Char.toLower, after)
      else none

/-- The five components `urlsplit` produces (params folded into path). -/
structure UrlParts where
  scheme : List Char
  netloc : List Char
  path : List Char
  query : List Char
  fragment : List Char
deriving DecidableEq

/-- A character that does not terminate the netloc portion of a URL. -/
def notNetlocEnd (c : Char) : Bool :=
  c != '/' && c != '?' && c != '#'

/-- Split the part of a URL after the scheme into netloc, path, query and
fragment, as `urlsplit` does. -/
def splitRest (scheme rest : List Char) : UrlParts :=
  let hasNetloc := rest.take 2 = [ '/', '/' ]
  let netloc := if hasNetloc then (rest.drop 2).takeWhile notNetlocEnd else []
  let r1 := if hasNetloc then (rest.drop 2).dropWhile notNetlocEnd else rest
  let pf := breakAtChar '#' r1
  let frag := pf.2.getD []
  let pq := breakAtChar '?' pf.1
  let query := pq.2.getD []
  ⟨scheme, netloc, pq.1, query, frag⟩

/-- Model of `urlsplit url dflt`: split a URL into components, the scheme defaulting
to `dflt` when the URL carries none. -/
def splitUrlL (dflt l : List Char) : UrlParts :=
  match extractScheme l with
  | some sr => splitRest sr.1 sr.2
  | none => splitRest dflt l

/-- urllib's `uses_relative` scheme list. -/
def usesRelative : List (List Char) :=
  (["", "ftp", "http", "gopher", "nntp", "imap", "wais", "file", "https",
    "shttp", "mms", "prospero", "rtsp", "rtspu", "sftp", "svn", "svn+ssh",
    "ws", "wss"].map String.data)

/-- urllib's `uses_netloc` scheme list. -/
def usesNetloc : List (List Char) :=
  (["", "ftp", "http", "gopher", "nntp", "telnet", "imap", "wais", "file",
    "mms", "https", "shttp", "snews", "prospero", "rtsp", "rtspu", "rsync",
    "svn", "svn+ssh", "sftp", "nfs", "git", "git+ssh", "ws", "wss",
    "itms-services"].map String.data)

/-- Reassemble URL components (`urlunsplit`). -/
def unsplitUrl (p : UrlParts) : List Char :=
  let url := p.path
  let url :=
    if p.netloc ≠ [] ∨ url.take 2 = [ '/', '/' ] then
      let url2 := if url ≠ [] ∧ url.take 1 ≠ [ '/' ] then '/' :: url else url
      [ '/', '/' ] ++ p.netloc ++ url2
    else url
  let url := if p.scheme ≠ [] then p.scheme ++ ':' :: url else url
  let url := if p.query ≠ [] then url ++ '?' :: p.query else url
  if p.fragment ≠ [] then url ++ '#' :: p.fragment else url

/-- Python `str.split(sep)` on a single character: the result is
always nonempty and splitting the empty string yields `[[]]`. -/
def splitOnChar (ch : Char) : List Char → List (List Char)
  | [] => [[]]
  | c :: cs =>
    let r := splitOnChar ch cs
    if c = ch then [] :: r
    else
      match r with
      | [] => [[c]]
      | h :: t => (c :: h) :: t

/-- Python `sep.join(parts)` for a single-character separator. -/
def joinOnChar (ch : Char) : List (List Char) → List Char
  | [] => []
  | [a] => a
  | a :: rest => a ++ ch :: joinOnChar ch rest

/-- Model of `segments[1:-1] = filter(None, segments[1:-1])`: drop empty segments
from all but the first and last position. -/
def filterMiddle : List (List Char) → List (List Char)
  | [] => []
  | [a] => [a]
  | a :: rest => a :: ((rest.dropLast.filter (fun s => s ≠ [])) ++ [rest.getLastD []])

/-- The dot-segment resolution loop of `urljoin`: `..` pops, `.` is
skipped, and a trailing `.`/`..` leaves a trailing slash. -/
def resolveSegs (segments : List (List Char)) : List (List Char) :=
  let res := segments.foldl
    (fun acc seg =>
      if seg = [ '.', '.' ] then acc.dropLast
      else if seg = [ '.' ] then acc
      else acc ++ [seg]) []
  if segments.getLast? = some [ '.' ] ∨ segments.getLast? = some [ '.', '.' ] then
    res ++ [[]]
  else res

/-- Model of `urllib.parse.urljoin` on character lists. -/
def urljoinL (base url : List Char) : List Char :=
  if base = [] then url
  else if url = [] then base
  else
    let b := splitUrlL [] base
    let u := splitUrlL b.scheme url
    if u.scheme = b.scheme ∧ u.scheme ∈ usesRelative then
      if u.scheme ∈ usesNetloc ∧ u.netloc ≠ [] then
        unsplitUrl ⟨u.scheme, u.netloc, u.path, u.query, u.fragment⟩
      else
        let netloc := if u.scheme ∈ usesNetloc then b.netloc else u.netloc
        if u.path = [] then
          unsplitUrl ⟨u.scheme, netloc, b.path,
            (if u.query ≠ [] then u.query else b.query), u.fragment⟩
        else
          let baseParts := splitOnChar '/' b.path
          let baseParts :=
            if baseParts.getLast? = some [] then baseParts else baseParts.dropLast
          let segments :=
            if u.path.take 1 = [ '/' ] then splitOnChar '/' u.path
            else filterMiddle (baseParts ++ splitOnChar '/' u.path)
          let rp := joinOnChar '/' (resolveSegs segments)
          unsplitUrl ⟨u.scheme, netloc, (if rp = [] then [ '/' ] else rp),
            u.query, u.fragment⟩
    else url

/-- Model of `urllib.parse.urljoin` on strings. -/
def urljoin (base url : String) : String :=
  ⟨urljoinL base.data url.data⟩

/-- Python's `str.lower()`. -/
def strLower (s : String) : String :=
  ⟨s.data.map Char.toLower⟩

/-! Client data model -/

/-- A Digest-auth object (`HTTPDigestAuth` in requests, `DigestAuth` in
httpx): constructed from a username and a password.  `instanceId` models
Python object identity, so that two separately constructed auth objects
with the same credentials are distinguishable; clients allocate fresh ids
from a counter. -/
structure AuthState where
  username : String
  password : String
  instanceId : Nat
deriving DecidableEq

/-- An HTTP response; `tag` models object identity so that "the response
is returned unmodified" is expressible. -/
structure Response where
  status : Nat
  tag : Nat
deriving DecidableEq

/-- Transport-level failures, classified as the two `except` chains do:
`timeout` (requests `Timeout` / httpx `TimeoutException`),
`connectionError` (requests `ConnectionError` / httpx `ConnectError`),
`requestError` (any other requests `RequestException` / httpx
`RequestError`). -/
inductive TransportError
  | timeout
  | connectionError
  | requestError
deriving DecidableEq

/-- Logging levels used by the clients. -/
inductive LogLevel
  | info
  | warning
deriving DecidableEq

/-- The log records the two request methods emit, keyed by endpoint. -/
inductive LogEvent
  | received401 (endpoint : String)
  | still401 (endpoint : String)
  | timeoutWarn (endpoint : String)
  | connErrWarn (endpoint : String)
  | reqErrInfo (endpoint : String)
deriving DecidableEq

/-- The level each log record is emitted at. -/
def LogEvent.level : LogEvent → LogLevel
  | .received401 _ => .info
  | .still401 _ => .warning
  | .timeoutWarn _ => .warning
  | .connErrWarn _ => .warning
  | .reqErrInfo _ => .info

/-- The single log record the `except` handlers produce for a transport
failure. -/
def failLog (e : TransportError) (endpoint : String) : LogEvent :=
  match e with
  | .timeout => .timeoutWarn endpoint
  | .connectionError => .connErrWarn endpoint
  | .requestError => .reqErrInfo endpoint

/-- Values storable in a session attribute or a kwargs map (Python values
are untyped; this sum covers the shapes the embedding needs). -/
inductive SessionValue
  | nonev
  | boolv (b : Bool)
  | natv (n : Nat)
  | strv (s : String)
  | authv (a : AuthState)
deriving DecidableEq

/-- First binding of `k` in an association list (Python attribute /
dict read). -/
def lookupAssoc (k : String) : List (String × SessionValue) → Option SessionValue
  | [] => none
  | (k2, v) :: rest => if k2 = k then some v else lookupAssoc k rest

/-- Update the binding of `k` in an association list, keeping order and
appending when absent (Python attribute assignment). -/
def setAssoc (k : String) (v : SessionValue) :
    List (String × SessionValue) → List (String × SessionValue)
  | [] => [(k, v)]
  | (k2, v2) :: rest =>
    if k2 = k then (k, v) :: rest else (k2, v2) :: setAssoc k v rest

/-- The instance attributes a fresh `requests.Session()` carries
(modelled from the external transport library: `Session.__init__` /
`Session.__attrs__` in requests).  `hasattr(session, key)` for a data
attribute is membership here. -/
def sessionAttrNames : List String :=
  ["headers", "cookies", "auth", "proxies", "hooks", "params",
   "verify", "cert", "adapters", "stream", "trust_env", "max_redirects"]

/-- A `requests.Session`: a connection resource (`resourceId` models the
identity of the underlying connection pool), a set of attributes, and a
closed flag (`Session.close` in requests is idempotent and never
raises, so it is modelled as a total function setting the flag). -/
structure Session where
  resourceId : Nat
  attrs : List (String × SessionValue)
  closed : Bool
deriving DecidableEq

/-- A fresh `requests.Session()` with its default attribute values (modelled from
the external transport library; only `verify = True` and `auth = None`
matter to the proofs). -/
def Session.new (rid : Nat) : Session :=
  { resourceId := rid,
    attrs := [("headers", .strv "default-headers"), ("cookies", .strv ""),
              ("auth", .nonev), ("proxies", .strv ""), ("hooks", .strv ""),
              ("params", .strv ""), ("verify", .boolv true), ("cert", .nonev),
              ("adapters", .strv ""), ("stream", .boolv false),
              ("trust_env", .boolv true), ("max_redirects", .natv 30)],
    closed := false }

/-- Python `setattr(session, k, v)`. -/
def Session.setAttr (s : Session) (k : String) (v : SessionValue) : Session :=
  { s with attrs := setAssoc k v s.attrs }

/-- Python `getattr(session, k, None)`-style read. -/
def Session.getAttr (s : Session) (k : String) : Option SessionValue :=
  lookupAssoc k s.attrs

/-- Python `hasattr(session, k)` over the modelled data attributes. -/
def Session.hasAttr (s : Session) (k : String) : Bool :=
  (lookupAssoc k s.attrs).isSome

/-- The auth object currently bound to the session (`session.auth`). -/
def Session.authState (s : Session) : Option AuthState :=
  match lookupAssoc "auth" s.attrs with
  | some (.authv a) => some a
  | _ => none

/-- The synchronous client (`Client` in `client.py`). `nextAuthId` is the
model's allocator for fresh `HTTPDigestAuth` object identities. -/
structure Client where
  protocol : String
  ip : String
  username : String
  password : String
  port : Nat
  base_url : String
  session : Session
  nextAuthId : Nat
deriving DecidableEq

/-- Model of `Client.__init__(ip, username, password, port=None, protocol='http',
**kwargs)`: lowercase the protocol, default the port by protocol, build
the base URL, create the session, bind Digest auth, disable TLS
verification, then apply each kwarg guarded by `hasattr`. -/
def Client.init (ip username password : String) (port? : Option Nat)
    (protocol : String) (kwargs : List (String × SessionValue)) : Client :=
  let proto := strLower protocol
  let prt :=
    match port? with
    | some p => p
    | none => if proto = "https" then 443 else 80
  let s1 := (Session.new 0).setAttr "auth" (.authv ⟨username, password, 0⟩)
  let s2 := s1.setAttr "verify" (.boolv false)
  let s3 := kwargs.foldl
    (fun s kv => if s.hasAttr kv.1 then s.setAttr kv.1 kv.2 else s) s2
  { protocol := proto, ip := ip, username := username, password := password,
    port := prt,
    base_url := proto ++ "://" ++ ip ++ ":" ++ toString prt,
    session := s3, nextAuthId := 1 }

/-- One physical HTTP exchange as issued over the wire: method, resolved
URL, pass-through request kwargs, the auth object bound to the connection
at issue time, and the identity of the connection resource used. -/
structure IssuedExchange where
  method : String
  url : String
  rkwargs : List (String × SessionValue)
  auth : Option AuthState
  resourceId : Nat
deriving DecidableEq

/-- Result of one `_request` call: the physical exchanges performed in
order, the outcome (`Except.error` models a raised transport exception),
the post-state of the client, and the log records emitted. -/
structure RequestResult where
  issued : List IssuedExchange
  outcome : Except TransportError Response
  client : Client
  logs : List LogEvent

/-- Model of `Client._request(method, endpoint, **kwargs)`.  `device n` is the
outcome of the n-th physical exchange of this call (a raised transport
exception or a response).  Faithful to the source: resolve the URL with
`urljoin`; issue the request; on a 401, log, bind a fresh
`HTTPDigestAuth(username, password)` to the session and re-issue the
identical request once, warning if the retry is again a 401; return the
final response; transport exceptions from either exchange are logged once
and re-raised. -/
def Client.request (c : Client) (method endpoint : String)
    (rkwargs : List (String × SessionValue))
    (device : Nat → Except TransportError Response) : RequestResult :=
  let url := urljoin c.base_url endpoint
  let ex0 : IssuedExchange :=
    ⟨method, url, rkwargs, c.session.authState, c.session.resourceId⟩
  match device 0 with
  | .error e => ⟨[ex0], .error e, c, [failLog e endpoint]⟩
  | .ok r0 =>
    if r0.status = 401 then
      let fresh : AuthState := ⟨c.username, c.password, c.nextAuthId⟩
      let c1 : Client :=
        { c with session := c.session.setAttr "auth" (.authv fresh),
                 nextAuthId := c.nextAuthId + 1 }
      let ex1 : IssuedExchange :=
        ⟨method, url, rkwargs, some fresh, c1.session.resourceId⟩
      match device 1 with
      | .error e =>
        ⟨[ex0, ex1], .error e, c1, [.received401 endpoint, failLog e endpoint]⟩
      | .ok r1 =>
        ⟨[ex0, ex1], .ok r1, c1,
          if r1.status = 401 then [.received401 endpoint, .still401 endpoint]
          else [.received401 endpoint]⟩
    else ⟨[ex0], .ok r0, c, []⟩

/-- Model of `Client.close()`: `self.session.close()` (idempotent in requests). -/
def Client.close (c : Client) : Client :=
  { c with session := { c.session with closed := true } }

/-- Model of `Client.__exit__`: closes the session and returns `False`, so the
exception (if any) is never suppressed. -/
def Client.exitCM (c : Client) (_excInfo : Option Nat) : Client × Bool :=
  ({ c with session := { c.session with closed := true } }, false)

/-- The `with Client(...) as c:` protocol: run the body (which may finish
normally, `none`, or raise, `some exc`), call `__exit__`, and propagate
the exception unless `__exit__` returned `True`. -/
def withClient (c : Client) (body : Client → Client × Option Nat) :
    Client × Option Nat :=
  let r := body c
  let e := (r.1).exitCM r.2
  (e.1, if e.2 then none else r.2)

/-- Model well-formedness: every auth object reachable from the client was
allocated below the allocator counter (established by `Client.init`,
preserved by `Client.request`). -/
def Client.wfb (c : Client) : Bool :=
  match c.session.authState with
  | some a => decide (a.instanceId < c.nextAuthId)
  | none => true

/-! Asynchronous client (`asyncclient.py`) -/

/-- An `httpx.AsyncClient`: connection resource identity, the auth object
it was given (mutable attribute), and the kwargs it was constructed
with. -/
structure HttpxClient where
  resourceId : Nat
  auth : AuthState
  kwargs : List (String × SessionValue)
deriving DecidableEq

/-- The asynchronous client (`AsyncClient` in `asyncclient.py`).
`clientRef` is `self._client` (lazily created, `none` = Python `None`);
`nextAuthId` and `nextResourceId` are the model's allocators for object
identities of auth objects and httpx client instances. -/
structure AsyncClient where
  protocol : String
  ip : String
  username : String
  password : String
  port : Nat
  base_url : String
  auth : AuthState
  client_kwargs : List (String × SessionValue)
  clientRef : Option HttpxClient
  nextAuthId : Nat
  nextResourceId : Nat
deriving DecidableEq

/-- Model of `AsyncClient.__init__`: lowercase the protocol, default the port,
build the base URL, construct `self.auth = DigestAuth(username,
password)`, default `verify` to `False` via `kwargs.setdefault`, store
the kwargs, and leave `self._client = None`. -/
def AsyncClient.init (ip username password : String) (port? : Option Nat)
    (protocol : String) (kwargs : List (String × SessionValue)) : AsyncClient :=
  let proto := strLower protocol
  let prt :=
    match port? with
    | some p => p
    | none => if proto = "https" then 443 else 80
  let kw :=
    if (lookupAssoc "verify" kwargs).isSome then kwargs
    else kwargs ++ [("verify", .boolv false)]
  { protocol := proto, ip := ip, username := username, password := password,
    port := prt,
    base_url := proto ++ "://" ++ ip ++ ":" ++ toString prt,
    auth := ⟨username, password, 0⟩,
    client_kwargs := kw, clientRef := none,
    nextAuthId := 1, nextResourceId := 0 }

/-- The `client` property: return the existing `httpx.AsyncClient`, or
construct one from `self.auth` and the stored kwargs when the reference
is `None`. -/
def AsyncClient.clientGet (c : AsyncClient) : HttpxClient × AsyncClient :=
  match c.clientRef with
  | some h => (h, c)
  | none =>
    let h : HttpxClient := ⟨c.nextResourceId, c.auth, c.client_kwargs⟩
    (h, { c with clientRef := some h, nextResourceId := c.nextResourceId + 1 })

/-- Result of one `AsyncClient._request` call. -/
structure AsyncRequestResult where
  issued : List IssuedExchange
  outcome : Except TransportError Response
  client : AsyncClient
  logs : List LogEvent

/-- Model of `AsyncClient._request(method, endpoint, **kwargs)`: resolve the URL
with `urljoin`; issue the request via the `client` property (creating the
httpx client on first use); on a 401, log, set `self.client.auth` to a
fresh `DigestAuth(username, password)` (mutating the existing httpx
client, not recreating it) and re-issue the identical request once,
warning on a second 401; transport exceptions are logged once and
re-raised. -/
def AsyncClient.request (c : AsyncClient) (method endpoint : String)
    (rkwargs : List (String × SessionValue))
    (device : Nat → Except TransportError Response) : AsyncRequestResult :=
  let url := urljoin c.base_url endpoint
  let hc := c.clientGet
  let h := hc.1
  let c0 := hc.2
  let ex0 : IssuedExchange := ⟨method, url, rkwargs, some h.auth, h.resourceId⟩
  match device 0 with
  | .error e => ⟨[ex0], .error e, c0, [failLog e endpoint]⟩
  | .ok r0 =>
    if r0.status = 401 then
      let fresh : AuthState := ⟨c0.username, c0.password, c0.nextAuthId⟩
      let hc1 := c0.clientGet
      let c1 : AsyncClient :=
        { hc1.2 with clientRef := some { hc1.1 with auth := fresh },
                     nextAuthId := hc1.2.nextAuthId + 1 }
      let hc2 := c1.clientGet
      let ex1 : IssuedExchange :=
        ⟨method, url, rkwargs, some hc2.1.auth, hc2.1.resourceId⟩
      match device 1 with
      | .error e =>
        ⟨[ex0, ex1], .error e, hc2.2,
          [.received401 endpoint, failLog e endpoint]⟩
      | .ok r1 =>
        ⟨[ex0, ex1], .ok r1, hc2.2,
          if r1.status = 401 then [.received401 endpoint, .still401 endpoint]
          else [.received401 endpoint]⟩
    else ⟨[ex0], .ok r0, c0, []⟩

/-- Model of `AsyncClient.close()`: `if self._client: await self._client.aclose();
self._client = None`.  The boolean reports whether `aclose` was invoked
on the underlying transport. -/
def AsyncClient.close (c : AsyncClient) : AsyncClient × Bool :=
  match c.clientRef with
  | some _ => ({ c with clientRef := none }, true)
  | none => (c, false)

/-- Model of `AsyncClient.__aexit__`: `await self.close()`, then return `False`
(never suppress the exception). -/
def AsyncClient.aexitCM (c : AsyncClient) (_excInfo : Option Nat) :
    AsyncClient × Bool :=
  ((AsyncClient.close c).1, false)

/-- The `async with AsyncClient(...) as c:` protocol. -/
def withAsyncClient (c : AsyncClient)
    (body : AsyncClient → AsyncClient × Option Nat) : AsyncClient × Option Nat :=
  let r := body c
  let e := (r.1).aexitCM r.2
  (e.1, if e.2 then none else r.2)

/-- Model well-formedness for the async client: all reachable auth and
resource identities were allocated below their counters. -/
def AsyncClient.wfb (c : AsyncClient) : Bool :=
  decide (c.auth.instanceId < c.nextAuthId) &&
  match c.clientRef with
  | some h =>
    decide (h.auth.instanceId < c.nextAuthId) &&
    decide (h.resourceId < c.nextResourceId)
  | none => true

/-! Concrete fixtures used by the witnesses -/

/-- A concrete synchronous client. -/
def sampleClient : Client :=
  Client.init "10.0.0.1" "admin" "12345" none "http" []

/-- A concrete asynchronous client. -/
def sampleAsync : AsyncClient :=
  AsyncClient.init "10.0.0.1" "admin" "12345" none "http" []

/-- A device answering 401 on the first exchange and 200 on the second. -/
def dev401_200 : Nat → Except TransportError Response :=
  fun n => if n = 0 then .ok ⟨401, 10⟩ else .ok ⟨200, 11⟩

/-- A device always answering 200. -/
def dev200 : Nat → Except TransportError Response :=
  fun _ => .ok ⟨200, 20⟩

/-- A device answering 401 on every exchange. -/
def dev401_401 : Nat → Except TransportError Response :=
  fun n => if n = 0 then .ok ⟨401, 30⟩ else .ok ⟨401, 31⟩

/-- A device whose transport times out on every exchange. -/
def devTimeout : Nat → Except TransportError Response :=
  fun _ => .error .timeout

/-! Helper lemmas -/

theorem awf_self_auth_lt {c : AsyncClient} (hw : c.wfb = true) :
    c.auth.instanceId < c.nextAuthId := by
  unfold AsyncClient.wfb at hw
  simp only [Bool.and_eq_true, decide_eq_true_eq] at hw
  exact hw.1

theorem wf_auth_lt {c : Client} {a : AuthState} (h : c.wfb = true)
    (ha : c.session.authState = some a) : a.instanceId < c.nextAuthId := by
  unfold Client.wfb at h
  rw [ha] at h
  exact of_decide_eq_true h

theorem awf_client_auth_lt {c : AsyncClient} {h : HttpxClient}
    (hw : c.wfb = true) (hc : c.clientRef = some h) :
    h.auth.instanceId < c.nextAuthId := by
  unfold AsyncClient.wfb at hw
  rw [hc] at hw
  simp only [Bool.and_eq_true, decide_eq_true_eq] at hw
  exact hw.2.1

theorem awf_resource_lt {c : AsyncClient} {h : HttpxClient}
    (hw : c.wfb = true) (hc : c.clientRef = some h) :
    h.resourceId < c.nextResourceId := by
  unfold AsyncClient.wfb at hw
  rw [hc] at hw
  simp only [Bool.and_eq_true, decide_eq_true_eq] at hw
  exact hw.2.2

theorem lookup_setAssoc_self (k : String) (v : SessionValue)
    (l : List (String × SessionValue)) :
    lookupAssoc k (setAssoc k v l) = some v := by
  induction l with
  | nil => simp [setAssoc, lookupAssoc]
  | cons p rest ih =>
    rcases p with ⟨pk, pv⟩
    by_cases hp : pk = k
    · simp [setAssoc, hp, lookupAssoc]
    · simp [setAssoc, hp, lookupAssoc, ih]

theorem lookup_setAssoc_ne (k k2 : String) (v : SessionValue)
    (l : List (String × SessionValue)) (hne : k ≠ k2) :
    lookupAssoc k2 (setAssoc k v l) = lookupAssoc k2 l := by
  induction l with
  | nil => simp [setAssoc, lookupAssoc, hne]
  | cons p rest ih =>
    rcases p with ⟨pk, pv⟩
    by_cases hp : pk = k
    · subst hp
      simp [setAssoc, lookupAssoc, hne]
    · by_cases hk2 : pk = k2
      · simp [setAssoc, hp, lookupAssoc, hk2, Ne.symm hne]
      · simp [setAssoc, hp, lookupAssoc, hk2, ih]

theorem splitUrlL_scheme_of_extract {l s rest : List Char} (d : List Char)
    (hs : extractScheme l = some (s, rest)) : (splitUrlL d l).scheme = s := by
  unfold splitUrlL
  rw [hs]
  simp [splitRest]

/-- An endpoint carrying its own scheme, different from the base's, is
returned verbatim by `urljoin` (the absolute endpoint overrides the
base). -/
theorem urljoinL_absolute (base url s rest : List Char)
    (hb : base ≠ []) (hu : url ≠ [])
    (hs : extractScheme url = some (s, rest))
    (hne : s ≠ (splitUrlL [] base).scheme) :
    urljoinL base url = url := by
  unfold urljoinL
  rw [if_neg hb, if_neg hu]
  simp only []
  rw [if_neg]
  intro hcond
  exact hne ((splitUrlL_scheme_of_extract (splitUrlL [] base).scheme hs) ▸ hcond.1)

/-- Every physical exchange a sync `_request` issues goes to the
`urljoin` of the base URL and the endpoint. -/
theorem request_url_eq (c : Client) (m ep : String)
    (rkw : List (String × SessionValue))
    (device : Nat → Except TransportError Response) :
    ∀ ex ∈ (c.request m ep rkw device).issued,
      ex.url = urljoin c.base_url ep := by
  intro ex hex
  cases hd0 : device 0 with
  | error e =>
    simp [Client.request, hd0] at hex
    simp [hex]
  | ok r0 =>
    by_cases h401 : r0.status = 401
    · cases hd1 : device 1 with
      | error e =>
        simp [Client.request, hd0, h401, hd1] at hex
        rcases hex with hex | hex <;> simp [hex]
      | ok r1 =>
        simp [Client.request, hd0, h401, hd1] at hex
        rcases hex with hex | hex <;> simp [hex]
    · simp [Client.request, hd0, h401] at hex
      simp [hex]

/-- Every physical exchange an async `_request` issues goes to the
`urljoin` of the base URL and the endpoint. -/
theorem arequest_url_eq (ca : AsyncClient) (m ep : String)
    (rkw : List (String × SessionValue))
    (device : Nat → Except TransportError Response) :
    ∀ ex ∈ (ca.request m ep rkw device).issued,
      ex.url = urljoin ca.base_url ep := by
  intro ex hex
  cases hd0 : device 0 with
  | error e =>
    simp [AsyncClient.request, hd0] at hex
    simp [hex]
  | ok r0 =>
    by_cases h401 : r0.status = 401
    · cases hd1 : device 1 with
      | error e =>
        simp [AsyncClient.request, hd0, h401, hd1] at hex
        rcases hex with hex | hex <;> simp [hex]
      | ok r1 =>
        simp [AsyncClient.request, hd0, h401, hd1] at hex
        rcases hex with hex | hex <;> simp [hex]
    · simp [AsyncClient.request, hd0, h401] at hex
      simp [hex]

/-! Claim theorems -/

/-- C1: for every request whose first exchange returns status 401, the
client constructs a fresh auth object (a distinct instance, built from
the same stored username and password), rebinds it to the existing
connection resource without recreating the resource, re-issues the
identical request exactly once, and returns the second exchange's
response regardless of its status — in both the sync and async
variants. -/
theorem c1_reauth_single_retry
    (c : Client) (ca : AsyncClient) (m ep : String)
    (rkw : List (String × SessionValue))
    (device adevice : Nat → Except TransportError Response)
    (r0 r1 s0 s1 : Response)
    (hwf : c.wfb = true) (hawf : ca.wfb = true)
    (h0 : device 0 = .ok r0) (h401 : r0.status = 401) (h1 : device 1 = .ok r1)
    (g0 : adevice 0 = .ok s0) (g401 : s0.status = 401) (g1 : adevice 1 = .ok s1) :
    ((c.request m ep rkw device).issued =
      [⟨m, urljoin c.base_url ep, rkw, c.session.authState, c.session.resourceId⟩,
       ⟨m, urljoin c.base_url ep, rkw,
        some ⟨c.username, c.password, c.nextAuthId⟩, c.session.resourceId⟩] ∧
     (c.request m ep rkw device).outcome = .ok r1 ∧
     (c.request m ep rkw device).client.session.resourceId =
       c.session.resourceId ∧
     (∀ a, c.session.authState = some a → a.instanceId ≠ c.nextAuthId)) ∧
    ((ca.request m ep rkw adevice).issued =
      [⟨m, urljoin ca.base_url ep, rkw, some (ca.clientGet).1.auth,
        (ca.clientGet).1.resourceId⟩,
       ⟨m, urljoin ca.base_url ep, rkw,
        some ⟨ca.username, ca.password, ca.nextAuthId⟩,
        (ca.clientGet).1.resourceId⟩] ∧
     (ca.request m ep rkw adevice).outcome = .ok s1 ∧
     (ca.request m ep rkw adevice).client.clientRef =
       some ⟨(ca.clientGet).1.resourceId,
             ⟨ca.username, ca.password, ca.nextAuthId⟩,
             (ca.clientGet).1.kwargs⟩ ∧
     (ca.clientGet).1.auth.instanceId ≠ ca.nextAuthId) := by
  refine ⟨⟨?_, ?_, ?_, ?_⟩, ?_⟩
  · simp [Client.request, h0, h401, h1, Session.setAttr]
  · simp [Client.request, h0, h401, h1]
  · simp [Client.request, h0, h401, h1, Session.setAttr]
  · intro a ha
    exact Nat.ne_of_lt (wf_auth_lt hwf ha)
  · cases hcr : ca.clientRef with
    | some h =>
      refine ⟨?_, ?_, ?_, ?_⟩
      · simp [AsyncClient.request, AsyncClient.clientGet, hcr, g0, g401, g1]
      · simp [AsyncClient.request, AsyncClient.clientGet, hcr, g0, g401, g1]
      · simp [AsyncClient.request, AsyncClient.clientGet, hcr, g0, g401, g1]
      · have hg : (ca.clientGet).1 = h := by simp [AsyncClient.clientGet, hcr]
        rw [hg]
        exact Nat.ne_of_lt (awf_client_auth_lt hawf hcr)
    | none =>
      refine ⟨?_, ?_, ?_, ?_⟩
      · simp [AsyncClient.request, AsyncClient.clientGet, hcr, g0, g401, g1]
      · simp [AsyncClient.request, AsyncClient.clientGet, hcr, g0, g401, g1]
      · simp [AsyncClient.request, AsyncClient.clientGet, hcr, g0, g401, g1]
      · simp only [AsyncClient.clientGet, hcr]
        exact Nat.ne_of_lt (awf_self_auth_lt hawf)

/-- Witness for C1: a device answering 401 then 200; both variants return
the 200 response of the second exchange. -/
theorem c1_reauth_single_retry_witness :
    (sampleClient.request "GET" "/ISAPI/System/status" [] dev401_200).outcome =
      .ok ⟨200, 11⟩ ∧
    (sampleAsync.request "GET" "/ISAPI/System/status" [] dev401_200).outcome =
      .ok ⟨200, 11⟩ := by
  have h := c1_reauth_single_retry sampleClient sampleAsync "GET"
    "/ISAPI/System/status" [] dev401_200 dev401_200
    ⟨401, 10⟩ ⟨200, 11⟩ ⟨401, 10⟩ ⟨200, 11⟩
    (by decide) (by decide) rfl rfl rfl rfl rfl rfl
  exact ⟨h.1.2.1, h.2.2.1⟩

/-- C2: for every request whose first exchange returns any status other
than 401, exactly one physical exchange occurs, no reauthentication
happens (the sync client is returned unchanged), and that exchange's
response is returned unmodified — in both variants. -/
theorem c2_non401_single_exchange
    (c : Client) (ca : AsyncClient) (m ep : String)
    (rkw : List (String × SessionValue))
    (device adevice : Nat → Except TransportError Response)
    (r0 s0 : Response)
    (h0 : device 0 = .ok r0) (hne : r0.status ≠ 401)
    (g0 : adevice 0 = .ok s0) (gne : s0.status ≠ 401) :
    ((c.request m ep rkw device).issued =
      [⟨m, urljoin c.base_url ep, rkw, c.session.authState,
        c.session.resourceId⟩] ∧
     (c.request m ep rkw device).outcome = .ok r0 ∧
     (c.request m ep rkw device).client = c ∧
     (c.request m ep rkw device).logs = []) ∧
    ((ca.request m ep rkw adevice).issued.length = 1 ∧
     (ca.request m ep rkw adevice).outcome = .ok s0 ∧
     (ca.request m ep rkw adevice).client.clientRef = some (ca.clientGet).1 ∧
     (ca.request m ep rkw adevice).logs = []) := by
  refine ⟨?_, ?_⟩
  · simp [Client.request, h0, hne]
  · cases hcr : ca.clientRef with
    | some h => simp [AsyncClient.request, AsyncClient.clientGet, hcr, g0, gne]
    | none => simp [AsyncClient.request, AsyncClient.clientGet, hcr, g0, gne]

/-- Witness for C2: a device answering 404; one exchange, the 404 response
returned as-is. -/
theorem c2_non401_single_exchange_witness :
    (sampleClient.request "GET" "/ISAPI/System/status" []
      (fun _ => .ok ⟨404, 5⟩)).outcome = .ok ⟨404, 5⟩ ∧
    (sampleAsync.request "GET" "/ISAPI/System/status" []
      (fun _ => .ok ⟨404, 5⟩)).outcome = .ok ⟨404, 5⟩ := by
  have h := c2_non401_single_exchange sampleClient sampleAsync "GET"
    "/ISAPI/System/status" [] (fun _ => .ok ⟨404, 5⟩) (fun _ => .ok ⟨404, 5⟩)
    ⟨404, 5⟩ ⟨404, 5⟩ rfl (by decide) rfl (by decide)
  exact ⟨h.1.2.1, h.2.2.1⟩

/-- C3: for every request that completes at the transport level the
request operation returns the response normally, whatever the HTTP
status of either exchange; conversely, a raised error is always the
error some physical exchange's transport raised — in both variants. -/
theorem c3_http_status_never_raises
    (c : Client) (ca : AsyncClient) (m ep : String)
    (rkw : List (String × SessionValue))
    (device adevice : Nat → Except TransportError Response) :
    (∀ r0 r1, device 0 = .ok r0 → device 1 = .ok r1 →
      (c.request m ep rkw device).outcome =
        .ok (if r0.status = 401 then r1 else r0)) ∧
    (∀ e, (c.request m ep rkw device).outcome = .error e →
      device 0 = .error e ∨ device 1 = .error e) ∧
    (∀ s0 s1, adevice 0 = .ok s0 → adevice 1 = .ok s1 →
      (ca.request m ep rkw adevice).outcome =
        .ok (if s0.status = 401 then s1 else s0)) ∧
    (∀ e, (ca.request m ep rkw adevice).outcome = .error e →
      adevice 0 = .error e ∨ adevice 1 = .error e) := by
  refine ⟨?_, ?_, ?_, ?_⟩
  · intro r0 r1 h0 h1
    by_cases h401 : r0.status = 401
    · simp [Client.request, h0, h401, h1]
    · simp [Client.request, h0, h401]
  · intro e he
    cases hd0 : device 0 with
    | error e0 =>
      simp [Client.request, hd0] at he
      exact Or.inl (by rw [he])
    | ok r0 =>
      by_cases h401 : r0.status = 401
      · cases hd1 : device 1 with
        | error e1 =>
          simp [Client.request, hd0, h401, hd1] at he
          exact Or.inr (by rw [he])
        | ok r1 => simp [Client.request, hd0, h401, hd1] at he
      · simp [Client.request, hd0, h401] at he
  · intro s0 s1 g0 g1
    by_cases g401 : s0.status = 401
    · simp [AsyncClient.request, g0, g401, g1]
    · simp [AsyncClient.request, g0, g401]
  · intro e he
    cases hd0 : adevice 0 with
    | error e0 =>
      simp [AsyncClient.request, hd0] at he
      exact Or.inl (by rw [he])
    | ok s0 =>
      by_cases g401 : s0.status = 401
      · cases hd1 : adevice 1 with
        | error e1 =>
          simp [AsyncClient.request, hd0, g401, hd1] at he
          exact Or.inr (by rw [he])
        | ok s1 => simp [AsyncClient.request, hd0, g401, hd1] at he
      · simp [AsyncClient.request, hd0, g401] at he

/-- Witness for C3: a double-401 device; both variants return the second
401 response instead of raising. -/
theorem c3_http_status_never_raises_witness :
    (sampleClient.request "GET" "/ISAPI/System/status" [] dev401_401).outcome =
      .ok ⟨401, 31⟩ ∧
    (sampleAsync.request "GET" "/ISAPI/System/status" [] dev401_401).outcome =
      .ok ⟨401, 31⟩ := by
  have h := c3_http_status_never_raises sampleClient sampleAsync "GET"
    "/ISAPI/System/status" [] dev401_401 dev401_401
  exact ⟨h.1 ⟨401, 30⟩ ⟨401, 31⟩ rfl rfl, h.2.2.1 ⟨401, 30⟩ ⟨401, 31⟩ rfl rfl⟩

/-- C4: a transport-level failure on the first exchange is logged exactly
once (at the classifying handler) and re-raised as the same exception,
with no second exchange and no reauthentication; a failure on the retry
exchange is likewise logged once and re-raised — in both variants. -/
theorem c4_transport_failure_propagates
    (c : Client) (ca : AsyncClient) (m ep : String)
    (rkw : List (String × SessionValue))
    (device adevice device2 adevice2 : Nat → Except TransportError Response)
    (e f : TransportError)
    (h0 : device 0 = .error e) (g0 : adevice 0 = .error f) :
    ((c.request m ep rkw device).outcome = .error e ∧
     (c.request m ep rkw device).issued.length = 1 ∧
     (c.request m ep rkw device).logs = [failLog e ep] ∧
     (c.request m ep rkw device).client = c) ∧
    ((ca.request m ep rkw adevice).outcome = .error f ∧
     (ca.request m ep rkw adevice).issued.length = 1 ∧
     (ca.request m ep rkw adevice).logs = [failLog f ep] ∧
     (ca.request m ep rkw adevice).client = (ca.clientGet).2) ∧
    (∀ r0 e2, device2 0 = .ok r0 → r0.status = 401 → device2 1 = .error e2 →
      (c.request m ep rkw device2).outcome = .error e2 ∧
      (c.request m ep rkw device2).logs = [.received401 ep, failLog e2 ep]) ∧
    (∀ s0 e2, adevice2 0 = .ok s0 → s0.status = 401 → adevice2 1 = .error e2 →
      (ca.request m ep rkw adevice2).outcome = .error e2 ∧
      (ca.request m ep rkw adevice2).logs = [.received401 ep, failLog e2 ep]) := by
  refine ⟨?_, ?_, ?_, ?_⟩
  · simp [Client.request, h0]
  · simp [AsyncClient.request, g0]
  · intro r0 e2 hd0 h401 hd1
    simp [Client.request, hd0, h401, hd1]
  · intro s0 e2 hd0 g401 hd1
    simp [AsyncClient.request, hd0, g401, hd1]

/-- Witness for C4: a timeout on the first exchange propagates as the same
timeout with a single warning log and a single issued exchange. -/
theorem c4_transport_failure_propagates_witness :
    ((sampleClient.request "GET" "/ISAPI/System/status" [] devTimeout).outcome =
      .error .timeout ∧
     (sampleClient.request "GET" "/ISAPI/System/status" []
       devTimeout).issued.length = 1 ∧
     (sampleClient.request "GET" "/ISAPI/System/status" [] devTimeout).logs =
      [failLog .timeout "/ISAPI/System/status"] ∧
     (sampleClient.request "GET" "/ISAPI/System/status" [] devTimeout).client =
      sampleClient) ∧
    (sampleAsync.request "GET" "/ISAPI/System/status" [] devTimeout).outcome =
      .error .timeout := by
  have h := c4_transport_failure_propagates sampleClient sampleAsync "GET"
    "/ISAPI/System/status" [] devTimeout devTimeout devTimeout devTimeout
    .timeout .timeout rfl rfl
  exact ⟨h.1, h.2.1.1⟩

/-- C5: the scheme is lowercased at construction; the port defaults to 80
for `http` and 443 for `https` and an explicit port is used verbatim; the
base URL is `scheme://host:port`; every request goes to the standard
relative-URL join of the base URL and the endpoint; and an endpoint that
is itself an absolute URL (one carrying a scheme different from the
base's) overrides the base — in both variants. -/
theorem c5_url_construction
    (ip u p : String) (pp : Nat) (protocol m endpoint : String)
    (kwargs rkw : List (String × SessionValue))
    (device : Nat → Except TransportError Response)
    (base2 ep2 s rest : List Char)
    (hb : base2 ≠ []) (hu : ep2 ≠ [])
    (hs : extractScheme ep2 = some (s, rest))
    (hne : s ≠ (splitUrlL [] base2).scheme) :
    ((Client.init ip u p none protocol kwargs).protocol = strLower protocol ∧
     (Client.init ip u p none protocol kwargs).port =
       (if strLower protocol = "https" then 443 else 80) ∧
     (Client.init ip u p (some pp) protocol kwargs).port = pp ∧
     (Client.init ip u p none protocol kwargs).base_url =
       strLower protocol ++ "://" ++ ip ++ ":" ++
         toString (if strLower protocol = "https" then 443 else 80) ∧
     (Client.init ip u p (some pp) protocol kwargs).base_url =
       strLower protocol ++ "://" ++ ip ++ ":" ++ toString pp) ∧
    ((AsyncClient.init ip u p none protocol kwargs).protocol =
       strLower protocol ∧
     (AsyncClient.init ip u p none protocol kwargs).port =
       (if strLower protocol = "https" then 443 else 80) ∧
     (AsyncClient.init ip u p (some pp) protocol kwargs).port = pp ∧
     (AsyncClient.init ip u p none protocol kwargs).base_url =
       strLower protocol ++ "://" ++ ip ++ ":" ++
         toString (if strLower protocol = "https" then 443 else 80) ∧
     (AsyncClient.init ip u p (some pp) protocol kwargs).base_url =
       strLower protocol ++ "://" ++ ip ++ ":" ++ toString pp) ∧
    (∀ c : Client, ∀ ex ∈ (c.request m endpoint rkw device).issued,
      ex.url = urljoin c.base_url endpoint) ∧
    (∀ ca : AsyncClient, ∀ ex ∈ (ca.request m endpoint rkw device).issued,
      ex.url = urljoin ca.base_url endpoint) ∧
    urljoinL base2 ep2 = ep2 ∧
    urljoin "http://10.0.0.1:80" "/ISAPI/System/status" =
      "http://10.0.0.1:80/ISAPI/System/status" := by
  refine ⟨⟨rfl, rfl, rfl, rfl, rfl⟩, ⟨rfl, rfl, rfl, rfl, rfl⟩, ?_, ?_,
    urljoinL_absolute base2 ep2 s rest hb hu hs hne, by decide⟩
  · intro c
    exact request_url_eq c m endpoint rkw device
  · intro ca
    exact arequest_url_eq ca m endpoint rkw device

/-- Witness for C5 at concrete inputs: `https` defaults to port 443, an
explicit port is used verbatim, the spec's endpoint-join example holds,
and an absolute `https://` endpoint against an `http://` base is returned
verbatim. -/
theorem c5_url_construction_witness :
    (Client.init "10.0.0.1" "admin" "pw" none "https" []).base_url =
      "https://10.0.0.1:443" ∧
    (Client.init "10.0.0.1" "admin" "pw" (some 8443) "https" []).port = 8443 ∧
    urljoin "http://10.0.0.1:80" "/ISAPI/System/status" =
      "http://10.0.0.1:80/ISAPI/System/status" ∧
    urljoinL ("http://h:80").data ("https://other/x").data =
      ("https://other/x").data := by
  have h := c5_url_construction "10.0.0.1" "admin" "pw" 8443 "https" "GET"
    "/ISAPI/System/status" [] [] dev200
    ("http://h:80").data ("https://other/x").data ("https").data
    ("//other/x").data (by decide) (by decide) rfl (by decide)
  exact ⟨(h.1.2.2.2.1).trans (by decide), h.1.2.2.1,
    h.2.2.2.2.2, h.2.2.2.2.1⟩

/-- C6: exiting the scoped-acquisition block always releases the
connection resource, including when the body raises, and the exit handler
never suppresses the exception: the caller observes exactly the body's
outcome — in both variants. -/
theorem c6_scoped_exit_closes
    (c : Client) (ca : AsyncClient)
    (body : Client → Client × Option Nat)
    (abody : AsyncClient → AsyncClient × Option Nat) :
    (withClient c body).1.session.closed = true ∧
    (withClient c body).2 = (body c).2 ∧
    (withAsyncClient ca abody).1.clientRef = none ∧
    (withAsyncClient ca abody).2 = (abody ca).2 := by
  refine ⟨?_, ?_, ?_, ?_⟩
  · simp [withClient, Client.exitCM]
  · simp [withClient, Client.exitCM]
  · cases hcr : (abody ca).1.clientRef with
    | none =>
      simp [withAsyncClient, AsyncClient.aexitCM, AsyncClient.close, hcr]
    | some hh =>
      simp [withAsyncClient, AsyncClient.aexitCM, AsyncClient.close, hcr]
  · simp [withAsyncClient, AsyncClient.aexitCM]

/-- C7: calling `close()` twice never fails: the async variant nulls its
client reference on the first close, so the second close performs no
underlying release and is a no-op (and a close on a never-created
resource performs no release at all); the sync variant's double close
equals a single close because the transport close is idempotent. -/
theorem c7_double_close_safe (c : Client) (ca : AsyncClient) :
    Client.close (Client.close c) = Client.close c ∧
    (AsyncClient.close ca).1.clientRef = none ∧
    (AsyncClient.close (AsyncClient.close ca).1).2 = false ∧
    (AsyncClient.close (AsyncClient.close ca).1).1 = (AsyncClient.close ca).1 ∧
    (ca.clientRef = none → AsyncClient.close ca = (ca, false)) := by
  refine ⟨rfl, ?_, ?_, ?_, ?_⟩
  · cases hcr : ca.clientRef <;> simp [AsyncClient.close, hcr]
  · cases hcr : ca.clientRef <;> simp [AsyncClient.close, hcr]
  · cases hcr : ca.clientRef <;> simp [AsyncClient.close, hcr]
  · intro h
    simp [AsyncClient.close, h]

/-- Witness for C7: closing a fresh async client performs no release and
returns it unchanged; double close of the sync client equals single
close. -/
theorem c7_double_close_safe_witness :
    AsyncClient.close sampleAsync = (sampleAsync, false) ∧
    Client.close (Client.close sampleClient) = Client.close sampleClient := by
  have h := c7_double_close_safe sampleClient sampleAsync
  exact ⟨h.2.2.2.2 rfl, h.1⟩

/-- C8 counterexample: the claim that every construction kwarg is passed
through verbatim to the transport fails on the sync variant — a `timeout`
kwarg names no `requests.Session` attribute, so the `hasattr` guard drops
it silently: construction with it is indistinguishable from construction
without it. -/
theorem c8_sync_kwarg_dropped_counterexample :
    Client.init "10.0.0.1" "admin" "12345" none "http" [("timeout", .natv 5)] =
      Client.init "10.0.0.1" "admin" "12345" none "http" [] ∧
    (Client.init "10.0.0.1" "admin" "12345" none "http"
      [("timeout", .natv 5)]).session.getAttr "timeout" = none := by
  constructor
  · decide
  · decide

/-- C8 amended: TLS verification is disabled by default and a
caller-supplied setting takes precedence in both variants; the async
variant stores and forwards every construction kwarg verbatim to the
transport, while the sync variant applies a kwarg verbatim only when it
names an existing session attribute and silently drops it otherwise. -/
theorem c8_kwargs_passthrough_amended
    (ip u p : String) (port? : Option Nat) (protocol : String)
    (kwargs : List (String × SessionValue)) (k : String) (v : SessionValue)
    (b : Bool) :
    (Client.init ip u p port? protocol []).session.getAttr "verify" =
      some (.boolv false) ∧
    (Client.init ip u p port? protocol
      [("verify", .boolv b)]).session.getAttr "verify" = some (.boolv b) ∧
    ((Client.init ip u p port? protocol []).session.hasAttr k = true →
      (Client.init ip u p port? protocol [(k, v)]).session.getAttr k = some v) ∧
    ((Client.init ip u p port? protocol []).session.hasAttr k = false →
      Client.init ip u p port? protocol [(k, v)] =
        Client.init ip u p port? protocol []) ∧
    ((AsyncClient.init ip u p port? protocol []).client_kwargs =
      [("verify", .boolv false)]) ∧
    ((lookupAssoc "verify" kwargs).isSome = true →
      (AsyncClient.init ip u p port? protocol kwargs).client_kwargs = kwargs) ∧
    ((lookupAssoc "verify" kwargs).isSome = false →
      (AsyncClient.init ip u p port? protocol kwargs).client_kwargs =
        kwargs ++ [("verify", .boolv false)]) ∧
    (((AsyncClient.init ip u p port? protocol kwargs).clientGet).1.kwargs =
      (AsyncClient.init ip u p port? protocol kwargs).client_kwargs) := by
  refine ⟨rfl, rfl, ?_, ?_, rfl, ?_, ?_, rfl⟩
  · intro hk
    simp only [Client.init, List.foldl] at hk ⊢
    rw [if_pos hk]
    exact lookup_setAssoc_self k v _
  · intro hk
    simp only [Client.init, List.foldl] at hk ⊢
    simp [hk]
  · intro hv
    simp [AsyncClient.init, hv]
  · intro hv
    simp [AsyncClient.init, hv]

/-- Witness for C8 amended: a `proxies` kwarg (an existing session
attribute) is applied to the sync session; a `timeout` kwarg is dropped
by the sync variant but stored verbatim (with the defaulted `verify`) by
the async variant. -/
theorem c8_kwargs_passthrough_amended_witness :
    (Client.init "10.0.0.1" "admin" "12345" none "http"
      [("proxies", .strv "http://proxy:3128")]).session.getAttr "proxies" =
      some (.strv "http://proxy:3128") ∧
    Client.init "10.0.0.1" "admin" "12345" none "http" [("timeout", .natv 5)] =
      Client.init "10.0.0.1" "admin" "12345" none "http" [] ∧
    (AsyncClient.init "10.0.0.1" "admin" "12345" none "http"
      [("timeout", .natv 5)]).client_kwargs =
      [("timeout", .natv 5), ("verify", .boolv false)] := by
  have h1 := c8_kwargs_passthrough_amended "10.0.0.1" "admin" "12345" none
    "http" [("timeout", .natv 5)] "proxies" (.strv "http://proxy:3128") true
  have h2 := c8_kwargs_passthrough_amended "10.0.0.1" "admin" "12345" none
    "http" [("timeout", .natv 5)] "timeout" (.natv 5) true
  exact ⟨h1.2.2.1 (by decide), h2.2.2.2.1 (by decide),
    h2.2.2.2.2.2.2.1 (by decide)⟩

/-- The sync post-state of `_request` is either the original client or the
client with exactly the fresh auth rebinding (and the model's allocator
bump). -/
theorem request_client_eq (c : Client) (m ep : String)
    (rkw : List (String × SessionValue))
    (device : Nat → Except TransportError Response) :
    (c.request m ep rkw device).client = c ∨
    (c.request m ep rkw device).client =
      { c with
        session :=
          (c.session.setAttr "auth"
            (.authv ⟨c.username, c.password, c.nextAuthId⟩)),
        nextAuthId := c.nextAuthId + 1 } := by
  cases hd0 : device 0 with
  | error e =>
    left
    simp [Client.request, hd0]
  | ok r0 =>
    by_cases h401 : r0.status = 401
    · cases hd1 : device 1 with
      | error e =>
        right
        simp [Client.request, hd0, h401, hd1]
      | ok r1 =>
        right
        simp [Client.request, hd0, h401, hd1]
    · left
      simp [Client.request, hd0, h401]

/-- C9: after any sequence of `request`/`close` steps the identity and
credential fields (host, port, scheme, base URL, username, password)
are unchanged; the only post-construction mutations are the auth
rebinding on the session (sync), respectively the client-reference
creation/release and the auth rebinding on the httpx client (async). -/
theorem c9_frame_immutable_identity
    (c : Client) (ca : AsyncClient) (m ep : String)
    (rkw : List (String × SessionValue))
    (device : Nat → Except TransportError Response) :
    ((c.request m ep rkw device).client.ip = c.ip ∧
     (c.request m ep rkw device).client.port = c.port ∧
     (c.request m ep rkw device).client.protocol = c.protocol ∧
     (c.request m ep rkw device).client.base_url = c.base_url ∧
     (c.request m ep rkw device).client.username = c.username ∧
     (c.request m ep rkw device).client.password = c.password ∧
     (c.request m ep rkw device).client.session.resourceId =
       c.session.resourceId ∧
     (c.request m ep rkw device).client.session.closed = c.session.closed ∧
     (∀ k, k ≠ "auth" →
       (c.request m ep rkw device).client.session.getAttr k =
         c.session.getAttr k)) ∧
    ((Client.close c).ip = c.ip ∧ (Client.close c).port = c.port ∧
     (Client.close c).protocol = c.protocol ∧
     (Client.close c).base_url = c.base_url ∧
     (Client.close c).username = c.username ∧
     (Client.close c).password = c.password ∧
     (Client.close c).session.attrs = c.session.attrs) ∧
    ((ca.request m ep rkw device).client.ip = ca.ip ∧
     (ca.request m ep rkw device).client.port = ca.port ∧
     (ca.request m ep rkw device).client.protocol = ca.protocol ∧
     (ca.request m ep rkw device).client.base_url = ca.base_url ∧
     (ca.request m ep rkw device).client.username = ca.username ∧
     (ca.request m ep rkw device).client.password = ca.password ∧
     (ca.request m ep rkw device).client.auth = ca.auth ∧
     (ca.request m ep rkw device).client.client_kwargs = ca.client_kwargs) ∧
    ((AsyncClient.close ca).1.ip = ca.ip ∧
     (AsyncClient.close ca).1.port = ca.port ∧
     (AsyncClient.close ca).1.protocol = ca.protocol ∧
     (AsyncClient.close ca).1.base_url = ca.base_url ∧
     (AsyncClient.close ca).1.username = ca.username ∧
     (AsyncClient.close ca).1.password = ca.password ∧
     (AsyncClient.close ca).1.auth = ca.auth ∧
     (AsyncClient.close ca).1.client_kwargs = ca.client_kwargs) := by
  refine ⟨?_, ?_, ?_, ?_⟩
  · rcases request_client_eq c m ep rkw device with hcl | hcl <;>
      rw [hcl]
    · exact ⟨rfl, rfl, rfl, rfl, rfl, rfl, rfl, rfl, fun k hk => rfl⟩
    · refine ⟨rfl, rfl, rfl, rfl, rfl, rfl, rfl, rfl, ?_⟩
      intro k hk
      simp only [Session.getAttr, Session.setAttr]
      exact lookup_setAssoc_ne "auth" k _ _ (Ne.symm hk)
  · exact ⟨rfl, rfl, rfl, rfl, rfl, rfl, rfl⟩
  · cases hcr : ca.clientRef with
    | none =>
      cases hd0 : device 0 with
      | error e =>
        simp [AsyncClient.request, AsyncClient.clientGet, hcr, hd0]
      | ok r0 =>
        by_cases h401 : r0.status = 401
        · cases hd1 : device 1 with
          | error e =>
            simp [AsyncClient.request, AsyncClient.clientGet, hcr, hd0, h401,
              hd1]
          | ok r1 =>
            simp [AsyncClient.request, AsyncClient.clientGet, hcr, hd0, h401,
              hd1]
        · simp [AsyncClient.request, AsyncClient.clientGet, hcr, hd0, h401]
    | some hh =>
      cases hd0 : device 0 with
      | error e =>
        simp [AsyncClient.request, AsyncClient.clientGet, hcr, hd0]
      | ok r0 =>
        by_cases h401 : r0.status = 401
        · cases hd1 : device 1 with
          | error e =>
            simp [AsyncClient.request, AsyncClient.clientGet, hcr, hd0, h401,
              hd1]
          | ok r1 =>
            simp [AsyncClient.request, AsyncClient.clientGet, hcr, hd0, h401,
              hd1]
        · simp [AsyncClient.request, AsyncClient.clientGet, hcr, hd0, h401]
  · cases hcr : ca.clientRef <;> simp [AsyncClient.close, hcr]

/-- Witness for C9: on the double-401 run of the sample client, identity
fields and the non-auth session attributes are unchanged. -/
theorem c9_frame_immutable_identity_witness :
    (sampleClient.request "GET" "/ISAPI/System/status" []
      dev401_401).client.base_url = sampleClient.base_url ∧
    (sampleClient.request "GET" "/ISAPI/System/status" []
      dev401_401).client.session.getAttr "verify" =
      sampleClient.session.getAttr "verify" ∧
    (sampleAsync.request "GET" "/ISAPI/System/status" []
      dev401_401).client.auth = sampleAsync.auth := by
  have h := c9_frame_immutable_identity sampleClient sampleAsync "GET"
    "/ISAPI/System/status" [] dev401_401
  exact ⟨h.1.2.2.2.1, h.1.2.2.2.2.2.2.2.2 "verify" (by decide),
    h.2.2.1.2.2.2.2.2.2.1⟩

/-- The async client after a successful first request, used to witness
reuse-after-close. -/
def sampleAsyncUsed : AsyncClient :=
  (sampleAsync.request "GET" "/ISAPI/System/status" [] dev200).client

/-- C10: in the async variant, a request after `close()` does not fail
and does not reuse the released resource: the lazy `client` property
builds a brand-new httpx client from the original `self.auth` and the
stored kwargs, with a resource identity distinct from the released
one. -/
theorem c10_async_reusable_after_close
    (ca : AsyncClient) (h : HttpxClient) (m ep : String)
    (rkw : List (String × SessionValue))
    (device : Nat → Except TransportError Response)
    (hwf : ca.wfb = true) (hcr : ca.clientRef = some h) :
    (((AsyncClient.close ca).1.clientGet).1 =
      ⟨ca.nextResourceId, ca.auth, ca.client_kwargs⟩) ∧
    ca.nextResourceId ≠ h.resourceId ∧
    ((AsyncClient.close ca).1.request m ep rkw device).issued.head? =
      some ⟨m, urljoin ca.base_url ep, rkw, some ca.auth,
        ca.nextResourceId⟩ := by
  refine ⟨?_, ?_, ?_⟩
  · simp [AsyncClient.close, hcr, AsyncClient.clientGet]
  · exact (Nat.ne_of_lt (awf_resource_lt hwf hcr)).symm
  · cases hd0 : device 0 with
    | error e =>
      simp [AsyncClient.request, AsyncClient.close, hcr, AsyncClient.clientGet,
        hd0]
    | ok r0 =>
      by_cases h401 : r0.status = 401
      · cases hd1 : device 1 with
        | error e =>
          simp [AsyncClient.request, AsyncClient.close, hcr,
            AsyncClient.clientGet, hd0, h401, hd1]
        | ok r1 =>
          simp [AsyncClient.request, AsyncClient.close, hcr,
            AsyncClient.clientGet, hd0, h401, hd1]
      · simp [AsyncClient.request, AsyncClient.close, hcr,
          AsyncClient.clientGet, hd0, h401]

/-- Witness for C10: close the async client after a first request, then
request again — a fresh resource with identity 1 (the released one had
identity 0) is created from the original auth and stored kwargs. -/
theorem c10_async_reusable_after_close_witness :
    (((AsyncClient.close sampleAsyncUsed).1.clientGet).1 =
      ⟨1, ⟨"admin", "12345", 0⟩, [("verify", .boolv false)]⟩) ∧
    (1 : Nat) ≠ 0 ∧
    ((AsyncClient.close sampleAsyncUsed).1.request "GET"
      "/ISAPI/System/status" [] dev200).issued.head? =
      some ⟨"GET", urljoin sampleAsyncUsed.base_url "/ISAPI/System/status",
        [], some ⟨"admin", "12345", 0⟩, 1⟩ := by
  have h := c10_async_reusable_after_close sampleAsyncUsed
    ⟨0, ⟨"admin", "12345", 0⟩, [("verify", .boolv false)]⟩ "GET"
    "/ISAPI/System/status" [] dev200 (by decide) (by decide)
  exact h

end Hik
